import Mathlib

/-!
Shallow embedding of `scripts/ai/validate.py`: a command orchestrator that
invokes a batch-mode Unity test runner with normalized arguments.

External effects are modelled by an explicit oracle `Sys` (environment
variables, the `wslpath` converter, the filesystem, the runner's exit codes)
and every spawned process or observable output line is recorded as a
`ProcEvent` in an event trace.  A computation returns
`Except Err α × List ProcEvent`: the Python `raise SystemExit(msg)` calls
become `Except.error e` where `Err.message e` is the exact message string.
Python string truthiness (`if not unity`, `if test_filter`) is modelled by
`truthy`; Python `str.strip()` is modelled by `pyStrip`, which removes
leading and trailing whitespace characters.
-/

set_option autoImplicit false

/-- Fatal error raised by the script via `SystemExit`, classified by the
spec's error taxonomy; `Err.message` renders the exact Python message. -/
inductive Err where
  | pathConversion (value : String)
  | unityRequired
  | unityNotFound (path : String)
  | platformRequired (command : String)
  | filterRequired
  | runnerFailed (code : Int)
deriving DecidableEq, Repr

/-- The exact message string the Python code passes to `SystemExit`. -/
def Err.message : Err → String
  | .pathConversion v => "Error: failed to convert path via wslpath: " ++ v
  | .unityRequired => "Error: Unity path is required. Use --unity or set UNITY_EDITOR_PATH."
  | .unityNotFound p => "Error: Unity editor not found at \x27" ++ p ++ "\x27."
  | .platformRequired c => "Error: " ++ c ++ " requires --platform."
  | .filterRequired => "Error: single requires --filter."
  | .runnerFailed c => "Error: Unity test run failed with exit code " ++ toString c ++ "."

/-- Errors the spec taxonomy calls `ConfigurationError` (missing required
input: executable path, or missing platform/filter for a given mode). -/
def Err.isConfiguration : Err → Bool
  | .unityRequired => true
  | .platformRequired _ => true
  | .filterRequired => true
  | _ => false

/-- Observable side effects: spawned child processes (`wslpathCall`,
`runnerCall`) and the progress / dry-run lines printed by `run_one`. -/
inductive ProcEvent where
  | wslpathCall (arg value : String)
  | runnerCall (cmd : List String)
  | runInfo (platform results log : String)
  | dryRunCmd (executable : String) (args : List String)
deriving DecidableEq, Repr

/-- The oracle for everything outside the process: environment variables,
the `wslpath` converter (exit code / stdout / stderr as functions of its two
arguments), the filesystem, the runner's exit code as a function of the full
command, and `Path.resolve` for the project path. -/
structure Sys where
  wslDistroName : Option String
  wslInterop : Option String
  unityEditorPath : Option String
  wslpathExit : String → String → Int
  wslpathStdout : String → String → String
  wslpathStderr : String → String → String
  isFile : String → Bool
  runnerExit : List String → Int
  resolvePath : String → String

/-- Python truthiness of an optional string: `None` and `""` are falsy. -/
def truthy : Option String → Bool
  | none => false
  | some v => v != ""

/-- `is_wsl()`: `"WSL_DISTRO_NAME" in os.environ or "WSL_INTEROP" in os.environ`. -/
def is_wsl (s : Sys) : Bool :=
  s.wslDistroName.isSome || s.wslInterop.isSome

/-- `looks_like_windows_path(path)`: `len(path) >= 3 and path[1] == ":" and
path[2] in ("\\", "/")`, or `"\\" in path`. -/
def looks_like_windows_path (path : String) : Bool :=
  let cs := path.data
  (decide (3 ≤ cs.length) && (cs.get? 1 == some ':')
    && (cs.get? 2 == some '\\' || cs.get? 2 == some '/'))
  || cs.contains '\\'

/-- Python `str.strip()` on the character list: drop whitespace from both
ends (whitespace here is the ASCII space/tab/newline/return subset). -/
def stripChars (l : List Char) : List Char :=
  ((l.dropWhile Char.isWhitespace).reverse.dropWhile Char.isWhitespace).reverse

/-- Python `str.strip()`: remove leading and trailing whitespace. -/
def pyStrip (s : String) : String :=
  String.mk (stripChars s.data)

/-- `run_wslpath(arg, value)`: spawn `wslpath arg value`; on nonzero exit
raise `SystemExit`, else return captured stdout stripped of surrounding
whitespace (Python `.strip()`). -/
def run_wslpath (s : Sys) (arg value : String) : Except Err String × List ProcEvent :=
  if s.wslpathExit arg value != 0 then
    (Except.error (Err.pathConversion value), [ProcEvent.wslpathCall arg value])
  else
    (Except.ok (pyStrip (s.wslpathStdout arg value)), [ProcEvent.wslpathCall arg value])

/-- `to_unix_path(path)`: convert via `wslpath -u` only under WSL and only
when the path lexically looks like a Windows path; otherwise identity. -/
def to_unix_path (s : Sys) (path : String) : Except Err String × List ProcEvent :=
  if is_wsl s && looks_like_windows_path path then
    run_wslpath s "-u" path
  else
    (Except.ok path, [])

/-- `to_windows_path(path)`: convert via `wslpath -w` whenever under WSL
(no lexical pre-check); otherwise identity. -/
def to_windows_path (s : Sys) (path : String) : Except Err String × List ProcEvent :=
  if is_wsl s then
    run_wslpath s "-w" path
  else
    (Except.ok path, [])

/-- `resolve_unity_path(cli_unity, dry_run)`: source the raw path from the
`--unity` argument (Python `or` falls through on `None` or `""`) or the
`UNITY_EDITOR_PATH` environment variable; fail if neither is truthy;
normalize via `to_unix_path`; unless `dry_run`, check the file exists. -/
def resolve_unity_path (s : Sys) (cli_unity : Option String) (dry_run : Bool) :
    Except Err String × List ProcEvent :=
  match (if truthy cli_unity then cli_unity else s.unityEditorPath) with
  | none => (Except.error Err.unityRequired, [])
  | some u =>
    if u == "" then
      (Except.error Err.unityRequired, [])
    else
      match to_unix_path s u with
      | (Except.error e, ev) => (Except.error e, ev)
      | (Except.ok unity, ev) =>
        if !dry_run && !(s.isFile unity) then
          (Except.error (Err.unityNotFound unity), ev)
        else
          (Except.ok unity, ev)

/-- `build_args(project_path, platform, results_file, log_file, test_filter)`:
convert the three paths to the Windows namespace, then emit the fixed flag
sequence ending in `-quit`, extended by the filter pair when `test_filter`
is truthy. -/
def build_args (s : Sys) (project_path platform results_file log_file : String)
    (test_filter : Option String) : Except Err (List String) × List ProcEvent :=
  match to_windows_path s project_path with
  | (Except.error e, ev1) => (Except.error e, ev1)
  | (Except.ok np, ev1) =>
    match to_windows_path s results_file with
    | (Except.error e, ev2) => (Except.error e, ev1 ++ ev2)
    | (Except.ok nr, ev2) =>
      match to_windows_path s log_file with
      | (Except.error e, ev3) => (Except.error e, ev1 ++ ev2 ++ ev3)
      | (Except.ok nl, ev3) =>
        let args : List String :=
          ["-batchmode", "-projectPath", np, "-runTests", "-testPlatform", platform,
           "-testResults", nr, "-logFile", nl, "-quit"]
        let args :=
          if truthy test_filter then args ++ ["-testFilter", test_filter.getD ""]
          else args
        (Except.ok args, ev1 ++ ev2 ++ ev3)

/-- `run_one(...)`: build the invocation, print the progress lines, then
either print the quoted command (dry run) or launch the runner and map a
nonzero exit code to a fatal error. -/
def run_one (s : Sys) (unity project_path platform results_file log_file : String)
    (test_filter : Option String) (dry_run : Bool) : Except Err Unit × List ProcEvent :=
  match build_args s project_path platform results_file log_file test_filter with
  | (Except.error e, ev) => (Except.error e, ev)
  | (Except.ok args, ev) =>
    let ev := ev ++ [ProcEvent.runInfo platform results_file log_file]
    if dry_run then
      (Except.ok (), ev ++ [ProcEvent.dryRunCmd unity args])
    else
      let cmd := unity :: args
      let code := s.runnerExit cmd
      if code != 0 then
        (Except.error (Err.runnerFailed code), ev ++ [ProcEvent.runnerCall cmd])
      else
        (Except.ok (), ev ++ [ProcEvent.runnerCall cmd])

/-- The positional `command` argument; `argparse` restricts it to these
three choices. -/
inductive Mode where
  | single
  | suite
  | full
deriving DecidableEq, Repr

/-- The string form of the command, as interpolated into error messages. -/
def Mode.str : Mode → String
  | .single => "single"
  | .suite => "suite"
  | .full => "full"

/-- The parsed command line (`parse_args()` output). `platform` and `filter`
are optional strings; `dry_run` is the `--dry-run` switch. -/
structure Args where
  command : Mode
  platform : Option String
  filter : Option String
  unity : Option String
  project_path : String
  results_dir : String
  logs_dir : String
  dry_run : Bool

/-- `main()` after argument parsing: mode guards, executable resolution,
path resolution, then one or two `run_one` calls sharing one timestamp.
Directory creation (`mkdir`) spawns no process and is not traced. -/
def Validate.main (s : Sys) (a : Args) (timestamp : String) : Except Err Unit × List ProcEvent :=
  if (a.command == Mode.single || a.command == Mode.suite) && !(truthy a.platform) then
    (Except.error (Err.platformRequired a.command.str), [])
  else if a.command == Mode.single && !(truthy a.filter) then
    (Except.error Err.filterRequired, [])
  else
    match resolve_unity_path s a.unity a.dry_run with
    | (Except.error e, ev) => (Except.error e, ev)
    | (Except.ok unity, ev0) =>
      let project_path := s.resolvePath a.project_path
      match a.command with
      | Mode.single =>
        let platform := a.platform.getD ""
        let r := run_one s unity project_path platform
          (a.results_dir ++ "/" ++ platform ++ "-single-" ++ timestamp ++ ".xml")
          (a.logs_dir ++ "/" ++ platform ++ "-single-" ++ timestamp ++ ".log")
          a.filter a.dry_run
        (r.fst, ev0 ++ r.snd)
      | Mode.suite =>
        let platform := a.platform.getD ""
        let r := run_one s unity project_path platform
          (a.results_dir ++ "/" ++ platform ++ "-suite-" ++ timestamp ++ ".xml")
          (a.logs_dir ++ "/" ++ platform ++ "-suite-" ++ timestamp ++ ".log")
          none a.dry_run
        (r.fst, ev0 ++ r.snd)
      | Mode.full =>
        match run_one s unity project_path "EditMode"
          (a.results_dir ++ "/EditMode-suite-" ++ timestamp ++ ".xml")
          (a.logs_dir ++ "/EditMode-suite-" ++ timestamp ++ ".log")
          none a.dry_run with
        | (Except.error e, ev1) => (Except.error e, ev0 ++ ev1)
        | (Except.ok _, ev1) =>
          let r := run_one s unity project_path "PlayMode"
            (a.results_dir ++ "/PlayMode-suite-" ++ timestamp ++ ".xml")
            (a.logs_dir ++ "/PlayMode-suite-" ++ timestamp ++ ".log")
            none a.dry_run
          (r.fst, ev0 ++ ev1 ++ r.snd)

deriving instance DecidableEq for Except

/-! ### Concrete oracles and argument records used as witnesses -/

/-- A native (non-WSL) system where everything succeeds. -/
def sysOk : Sys where
  wslDistroName := none
  wslInterop := none
  unityEditorPath := none
  wslpathExit := fun _ _ => 0
  wslpathStdout := fun _ _ => ""
  wslpathStderr := fun _ _ => ""
  isFile := fun _ => true
  runnerExit := fun _ => 0
  resolvePath := fun p => p

/-- A WSL system (the `WSL_DISTRO_NAME` variable is present). -/
def sysWsl : Sys :=
  { sysOk with wslDistroName := some "Ubuntu" }

/-- A WSL system whose converter fails with exit code 7 and stderr `boom`. -/
def sysCfail : Sys :=
  { sysWsl with wslpathExit := fun _ _ => 7, wslpathStderr := fun _ _ => "boom" }

/-- A system whose converter prints stdout with leading and trailing
whitespace. -/
def sysLead : Sys :=
  { sysOk with wslpathStdout := fun _ _ => " out\n" }

/-- A system whose runner always exits with code 2. -/
def sysRunFail : Sys :=
  { sysOk with runnerExit := fun _ => 2 }

/-- A baseline `full`-mode command line. -/
def aFull : Args where
  command := Mode.full
  platform := none
  filter := none
  unity := some "unity"
  project_path := "proj"
  results_dir := "res"
  logs_dir := "logs"
  dry_run := false

/-! ### Trace and message predicates used in the statements -/

/-- `msg` contains `part` as a contiguous substring (character-level). -/
def msgIncludes (msg part : String) : Bool :=
  (List.range (msg.data.length + 1)).any fun i => part.data.isPrefixOf (msg.data.drop i)

/-- Modelled from the spec words (§4.2) for comparison: "lexically
recognizable as a foreign-namespace path (matches drive-letter-colon-
separator pattern, or contains the foreign path separator)" — read with a
genuine drive LETTER in first position. -/
def specForeignPattern (path : String) : Bool :=
  let cs := path.data
  (decide (3 ≤ cs.length) && (cs.getD 0 ' ').isAlpha && (cs.get? 1 == some ':')
    && (cs.get? 2 == some '\\' || cs.get? 2 == some '/'))
  || cs.contains '\\'

/-- No runner process occurs in the trace. -/
def noRunnerCall (ev : List ProcEvent) : Prop :=
  ∀ c, ProcEvent.runnerCall c ∉ ev

/-- The trace consists only of converter invocations. -/
def onlyWslCalls (ev : List ProcEvent) : Prop :=
  ∀ e ∈ ev, ∃ arg v, e = ProcEvent.wslpathCall arg v

/-- The fixed ten-element no-filter invocation argument list. -/
def fixedInvocation (args : List String) : Prop :=
  ∃ np plat nr nl, args = ["-batchmode", "-projectPath", np, "-runTests", "-testPlatform", plat,
    "-testResults", nr, "-logFile", nl, "-quit"]

/-- Every runner launch and every dry-run command line recorded in the
event carries the fixed no-filter argument list. -/
def eventNoFilter (e : ProcEvent) : Prop :=
  (∀ cmd, e = ProcEvent.runnerCall cmd → ∃ u rest, cmd = u :: rest ∧ fixedInvocation rest) ∧
  (∀ u args, e = ProcEvent.dryRunCmd u args → fixedInvocation args)

/-! ### Helper lemmas on the path translator -/

theorem run_wslpath_snd (s : Sys) (arg value : String) :
    (run_wslpath s arg value).snd = [ProcEvent.wslpathCall arg value] := by
  unfold run_wslpath
  split <;> rfl

theorem run_wslpath_error_eq (s : Sys) (arg value : String) (e : Err)
    (h : (run_wslpath s arg value).fst = Except.error e) :
    e = Err.pathConversion value := by
  unfold run_wslpath at h
  split at h
  · exact (Except.error.injEq _ _).mp h.symm ▸ rfl
  · exact absurd h (by simp)

theorem isPrefixOf_self (l : List Char) : l.isPrefixOf l = true := by
  induction l with
  | nil => rfl
  | cons c cs ih => simp [List.isPrefixOf, ih]

theorem msgIncludes_append_right (k v : String) : msgIncludes (k ++ v) v = true := by
  have hd : (k ++ v).data = k.data ++ v.data := String.data_append _ _
  unfold msgIncludes
  rw [List.any_eq_true]
  refine ⟨k.data.length, ?_, ?_⟩
  · rw [List.mem_range, hd, List.length_append]
    omega
  · rw [hd, List.drop_left]
    exact isPrefixOf_self v.data
theorem pyStrip_spec (s : String) :
    ∃ pre post, s.data = pre ++ (pyStrip s).data ++ post ∧
      (∀ c ∈ pre, c.isWhitespace = true) ∧ (∀ c ∈ post, c.isWhitespace = true) := by
  refine ⟨s.data.takeWhile Char.isWhitespace,
    ((s.data.dropWhile Char.isWhitespace).reverse.takeWhile Char.isWhitespace).reverse,
    ?_, ?_, ?_⟩
  · show s.data = _ ++ stripChars s.data ++ _
    unfold stripChars
    conv_lhs => rw [← List.takeWhile_append_dropWhile (p := Char.isWhitespace) (l := s.data)]
    rw [List.append_assoc]
    congr 1
    set r := s.data.dropWhile Char.isWhitespace with hr
    calc r = r.reverse.reverse := (List.reverse_reverse r).symm
      _ = (r.reverse.takeWhile Char.isWhitespace ++ r.reverse.dropWhile Char.isWhitespace).reverse := by
          rw [List.takeWhile_append_dropWhile]
      _ = (r.reverse.dropWhile Char.isWhitespace).reverse ++
            (r.reverse.takeWhile Char.isWhitespace).reverse := by
          rw [List.reverse_append]
  · intro c hc
    exact List.mem_takeWhile_imp hc
  · intro c hc
    exact List.mem_takeWhile_imp (List.mem_reverse.mp hc)

/-! ### C7: converter failure reporting -/

/-- Claim C7, counterexample: the claim says the failure message includes "both the
offending path and the converter's reported failure"; on a converter failing
with exit code 7 and stderr `boom`, the raised message contains the path but
neither the stderr text nor the exit code. -/
theorem run_wslpath_error_message_cex :
    run_wslpath sysCfail "-u" "C:x" =
      (Except.error (Err.pathConversion "C:x"), [ProcEvent.wslpathCall "-u" "C:x"]) ∧
    msgIncludes (Err.pathConversion "C:x").message "C:x" = true ∧
    msgIncludes (Err.pathConversion "C:x").message (sysCfail.wslpathStderr "-u" "C:x") = false ∧
    msgIncludes (Err.pathConversion "C:x").message (toString (sysCfail.wslpathExit "-u" "C:x")) = false := by
  decide

/-- Claim C7, amended: whenever the converter exits nonzero, the translator fails
fatally with a `PathConversionError` whose message includes the offending
path (the converter's reported failure is not part of the message). -/
theorem run_wslpath_error_includes_path (s : Sys) (arg value : String)
    (h : s.wslpathExit arg value ≠ 0) :
    run_wslpath s arg value =
      (Except.error (Err.pathConversion value), [ProcEvent.wslpathCall arg value]) ∧
    msgIncludes (Err.pathConversion value).message value = true := by
  have hb : (s.wslpathExit arg value != 0) = true := by simpa [bne_iff_ne] using h
  constructor
  · simp [run_wslpath, hb]
  · exact msgIncludes_append_right "Error: failed to convert path via wslpath: " value

theorem run_wslpath_error_includes_path_witness :
    run_wslpath sysCfail "-w" "p" =
      (Except.error (Err.pathConversion "p"), [ProcEvent.wslpathCall "-w" "p"]) ∧
    msgIncludes (Err.pathConversion "p").message "p" = true :=
  run_wslpath_error_includes_path sysCfail "-w" "p" (by decide)

/-! ### C8: converter success output trimming -/

/-- Claim C8, counterexample: on stdout `" out\n"` the code returns `"out"`, not the
`" out"` the claim (leading whitespace preserved) would require: Python
`.strip()` removes leading whitespace as well. -/
theorem run_wslpath_strips_leading_cex :
    (run_wslpath sysLead "-u" "p").fst = Except.ok "out" ∧
    (run_wslpath sysLead "-u" "p").fst ≠ Except.ok " out" := by
  decide

/-- Claim C8, amended: on a successful converter invocation the translator
returns the captured stdout stripped of BOTH leading and trailing
whitespace: the result is a contiguous block of the stdout and everything
removed on either side is whitespace. -/
theorem run_wslpath_ok_strip (s : Sys) (arg value : String)
    (h : s.wslpathExit arg value = 0) :
    run_wslpath s arg value =
      (Except.ok (pyStrip (s.wslpathStdout arg value)), [ProcEvent.wslpathCall arg value]) ∧
    ∃ pre post, (s.wslpathStdout arg value).data =
        pre ++ (pyStrip (s.wslpathStdout arg value)).data ++ post ∧
      (∀ c ∈ pre, c.isWhitespace = true) ∧ (∀ c ∈ post, c.isWhitespace = true) := by
  constructor
  · simp [run_wslpath, h]
  · exact pyStrip_spec _

theorem run_wslpath_ok_strip_witness :
    run_wslpath sysLead "-u" "p" =
      (Except.ok (pyStrip (sysLead.wslpathStdout "-u" "p")), [ProcEvent.wslpathCall "-u" "p"]) ∧
    ∃ pre post, (sysLead.wslpathStdout "-u" "p").data =
        pre ++ (pyStrip (sysLead.wslpathStdout "-u" "p")).data ++ post ∧
      (∀ c ∈ pre, c.isWhitespace = true) ∧ (∀ c ∈ post, c.isWhitespace = true) :=
  run_wslpath_ok_strip sysLead "-u" "p" rfl

/-! ### C3: to_windows_path (to_foreign) -/

/-- Claim C3: `to_windows_path` is the identity (and spawns nothing) outside the
compatibility layer; inside it, it always delegates to the converter with
the to-windows mode, for every path, with no lexical pre-check. -/
theorem to_windows_path_identity_or_convert (s : Sys) (p : String) :
    (is_wsl s = false → to_windows_path s p = (Except.ok p, [])) ∧
    (is_wsl s = true → to_windows_path s p = run_wslpath s "-w" p ∧
      (to_windows_path s p).snd = [ProcEvent.wslpathCall "-w" p]) := by
  constructor
  · intro h
    simp [to_windows_path, h]
  · intro h
    refine ⟨by simp [to_windows_path, h], ?_⟩
    simp [to_windows_path, h, run_wslpath_snd]

theorem to_windows_path_identity_or_convert_witness :
    to_windows_path sysOk "C:/a" = (Except.ok "C:/a", []) ∧
    (to_windows_path sysWsl "plain").snd = [ProcEvent.wslpathCall "-w" "plain"] :=
  ⟨(to_windows_path_identity_or_convert sysOk "C:/a").1 rfl,
   ((to_windows_path_identity_or_convert sysWsl "plain").2 rfl).2⟩

/-! ### C4: to_unix_path (to_unix) -/

/-- Claim C4, counterexample: under WSL the path `1:/proj` is not recognizable by
the spec's drive-letter pattern (its first character is not a letter and it
contains no backslash), yet the code invokes the converter on it: the code
only tests that the second character is a colon. -/
theorem to_unix_path_nonletter_drive_cex :
    is_wsl sysWsl = true ∧
    specForeignPattern "1:/proj" = false ∧
    (to_unix_path sysWsl "1:/proj").snd = [ProcEvent.wslpathCall "-u" "1:/proj"] := by
  decide

/-- Claim C4, amended: `to_unix_path` invokes the converter with the to-unix
mode exactly when running under the compatibility layer AND the path's
second character is a colon followed by a slash or backslash (the first
character need not be a letter), or the path contains a backslash; in every
other case it returns the path unchanged, spawning nothing. -/
theorem to_unix_path_convert_iff (s : Sys) (p : String) :
    (looks_like_windows_path p = true ↔
      ((3 ≤ p.data.length ∧ p.data.get? 1 = some ':' ∧
        (p.data.get? 2 = some '\\' ∨ p.data.get? 2 = some '/')) ∨ '\\' ∈ p.data)) ∧
    (is_wsl s = true → looks_like_windows_path p = true →
      to_unix_path s p = run_wslpath s "-u" p ∧
      (to_unix_path s p).snd = [ProcEvent.wslpathCall "-u" p]) ∧
    (¬(is_wsl s = true ∧ looks_like_windows_path p = true) →
      to_unix_path s p = (Except.ok p, [])) := by
  refine ⟨?_, ?_, ?_⟩
  · simp [looks_like_windows_path, List.contains, and_assoc]
  · intro hw hl
    refine ⟨by simp [to_unix_path, hw, hl], ?_⟩
    simp [to_unix_path, hw, hl, run_wslpath_snd]
  · intro h
    have hc : (is_wsl s && looks_like_windows_path p) = false := by
      rcases Bool.eq_false_or_eq_true (is_wsl s) with h1 | h1
      · rcases Bool.eq_false_or_eq_true (looks_like_windows_path p) with h2 | h2
        · exact absurd ⟨h1, h2⟩ h
        · simp [h2]
      · simp [h1]
    simp [to_unix_path, hc]

theorem to_unix_path_convert_iff_witness :
    (looks_like_windows_path "C:/a" = true ↔
      ((3 ≤ "C:/a".data.length ∧ "C:/a".data.get? 1 = some ':' ∧
        ("C:/a".data.get? 2 = some '\\' ∨ "C:/a".data.get? 2 = some '/')) ∨
        '\\' ∈ "C:/a".data)) ∧
    (to_unix_path sysWsl "C:/a").snd = [ProcEvent.wslpathCall "-u" "C:/a"] ∧
    to_unix_path sysOk "C:/a" = (Except.ok "C:/a", []) :=
  ⟨(to_unix_path_convert_iff sysWsl "C:/a").1,
   ((to_unix_path_convert_iff sysWsl "C:/a").2.1 rfl rfl).2,
   (to_unix_path_convert_iff sysOk "C:/a").2.2 (by decide)⟩

/-! ### C9: empty-string executable argument -/

/-- Claim C9: an explicit `--unity` equal to the empty string is treated exactly
like an absent argument (Python `or` falls through on falsy strings): the
resolver behaves identically to the no-argument call, and when the
`UNITY_EDITOR_PATH` fallback is also unset or empty it fails with the
executable-path-required configuration error before spawning anything. -/
theorem resolve_unity_path_empty_cli (s : Sys) (d : Bool) :
    resolve_unity_path s (some "") d = resolve_unity_path s none d ∧
    ((s.unityEditorPath = none ∨ s.unityEditorPath = some "") →
      resolve_unity_path s (some "") d = (Except.error Err.unityRequired, [])) := by
  have h0 : truthy (some "") = false := rfl
  have h1 : truthy (none : Option String) = false := rfl
  constructor
  · simp [resolve_unity_path, h0, h1]
  · rintro (h | h) <;> simp [resolve_unity_path, h0, h]

theorem resolve_unity_path_empty_cli_witness :
    resolve_unity_path sysOk (some "") false = resolve_unity_path sysOk none false ∧
    resolve_unity_path sysOk (some "") false = (Except.error Err.unityRequired, []) :=
  ⟨(resolve_unity_path_empty_cli sysOk false).1,
   (resolve_unity_path_empty_cli sysOk false).2 (Or.inl rfl)⟩

/-! ### C1: invocation builder flag order -/

theorem build_args_ok (s : Sys) (pp plat r l : String) (tf : Option String)
    (L : List String) (ev : List ProcEvent)
    (h : build_args s pp plat r l tf = (Except.ok L, ev)) :
    ∃ np nr nl, L = ["-batchmode", "-projectPath", np, "-runTests", "-testPlatform", plat,
      "-testResults", nr, "-logFile", nl, "-quit"] ++
      (if truthy tf then ["-testFilter", tf.getD ""] else []) := by
  unfold build_args at h
  rcases h1 : to_windows_path s pp with ⟨f1, ev1⟩
  rw [h1] at h
  cases f1 with
  | error e => simp at h
  | ok np =>
    rcases h2 : to_windows_path s r with ⟨f2, ev2⟩
    rw [h2] at h
    cases f2 with
    | error e => simp at h
    | ok nr =>
      rcases h3 : to_windows_path s l with ⟨f3, ev3⟩
      rw [h3] at h
      cases f3 with
      | error e => simp at h
      | ok nl =>
        refine ⟨np, nr, nl, ?_⟩
        simp only [Prod.mk.injEq, Except.ok.injEq] at h
        rcases h with ⟨hL, -⟩
        cases htf : truthy tf <;> simp [htf] at hL <;> simp [hL]

/-- Claim C1, counterexample: with a filter supplied, the returned list ends with
the filter pair, i.e. the quit flag is NOT strictly after all other flags:
the code appends `-testFilter <filter>` after `-quit`. -/
theorem build_args_filter_after_quit_cex :
    (build_args sysOk "p" "EditMode" "r" "l" (some "MyTest")).fst =
      Except.ok ["-batchmode", "-projectPath", "p", "-runTests", "-testPlatform", "EditMode",
        "-testResults", "r", "-logFile", "l", "-quit", "-testFilter", "MyTest"] ∧
    ["-batchmode", "-projectPath", "p", "-runTests", "-testPlatform", "EditMode",
      "-testResults", "r", "-logFile", "l", "-quit", "-testFilter", "MyTest"].getLast?
      = some "MyTest" := by
  decide

/-- Claim C1, amended: every successfully built argument list is the fixed flag
sequence ending in the quit flag — so the quit flag is strictly after all
other flags EXCEPT the filter pair — followed by the two-element filter
pair exactly when a non-empty filter was supplied (the pair trails the quit
flag). -/
theorem build_args_flag_order (s : Sys) (pp plat r l : String) (tf : Option String)
    (L : List String) (ev : List ProcEvent)
    (h : build_args s pp plat r l tf = (Except.ok L, ev)) :
    ∃ np nr nl, L = ["-batchmode", "-projectPath", np, "-runTests", "-testPlatform", plat,
      "-testResults", nr, "-logFile", nl, "-quit"] ++
      (if truthy tf then ["-testFilter", tf.getD ""] else []) :=
  build_args_ok s pp plat r l tf L ev h

theorem build_args_flag_order_witness :
    ∃ np nr nl, ["-batchmode", "-projectPath", "p", "-runTests", "-testPlatform", "EditMode",
      "-testResults", "r", "-logFile", "l", "-quit", "-testFilter", "MyTest"] =
      ["-batchmode", "-projectPath", np, "-runTests", "-testPlatform", "EditMode",
       "-testResults", nr, "-logFile", nl, "-quit"] ++
      (if truthy (some "MyTest") then ["-testFilter", (some "MyTest").getD ""] else []) :=
  build_args_flag_order sysOk "p" "EditMode" "r" "l" (some "MyTest")
    ["-batchmode", "-projectPath", "p", "-runTests", "-testPlatform", "EditMode",
     "-testResults", "r", "-logFile", "l", "-quit", "-testFilter", "MyTest"] []
    (by decide)

/-! ### Trace classification helpers -/

theorem onlyWslCalls_nil : onlyWslCalls [] := by
  intro e he
  cases he

theorem onlyWslCalls_append (a b : List ProcEvent) (ha : onlyWslCalls a) (hb : onlyWslCalls b) :
    onlyWslCalls (a ++ b) := by
  intro e he
  rcases List.mem_append.mp he with h | h
  · exact ha e h
  · exact hb e h

theorem run_wslpath_calls (s : Sys) (arg v : String) :
    onlyWslCalls (run_wslpath s arg v).snd := by
  rw [run_wslpath_snd]
  intro e he
  simp at he
  exact ⟨arg, v, he⟩

theorem to_windows_path_calls (s : Sys) (p : String) :
    onlyWslCalls (to_windows_path s p).snd := by
  unfold to_windows_path
  split
  · exact run_wslpath_calls s "-w" p
  · exact onlyWslCalls_nil

theorem to_unix_path_calls (s : Sys) (p : String) :
    onlyWslCalls (to_unix_path s p).snd := by
  unfold to_unix_path
  split
  · exact run_wslpath_calls s "-u" p
  · exact onlyWslCalls_nil

theorem to_windows_path_error_eq (s : Sys) (p : String) (e : Err)
    (h : (to_windows_path s p).fst = Except.error e) : e = Err.pathConversion p := by
  unfold to_windows_path at h
  split at h
  · exact run_wslpath_error_eq s "-w" p e h
  · simp at h

theorem to_unix_path_error_eq (s : Sys) (p : String) (e : Err)
    (h : (to_unix_path s p).fst = Except.error e) : e = Err.pathConversion p := by
  unfold to_unix_path at h
  split at h
  · exact run_wslpath_error_eq s "-u" p e h
  · simp at h

theorem build_args_calls (s : Sys) (pp plat r l : String) (tf : Option String) :
    onlyWslCalls (build_args s pp plat r l tf).snd := by
  unfold build_args
  rcases h1 : to_windows_path s pp with ⟨f1, ev1⟩
  have c1 : onlyWslCalls ev1 := by
    have t := to_windows_path_calls s pp
    rw [h1] at t
    exact t
  cases f1 with
  | error e => exact c1
  | ok np =>
    rcases h2 : to_windows_path s r with ⟨f2, ev2⟩
    have c2 : onlyWslCalls ev2 := by
      have t := to_windows_path_calls s r
      rw [h2] at t
      exact t
    cases f2 with
    | error e => exact onlyWslCalls_append _ _ c1 c2
    | ok nr =>
      rcases h3 : to_windows_path s l with ⟨f3, ev3⟩
      have c3 : onlyWslCalls ev3 := by
        have t := to_windows_path_calls s l
        rw [h3] at t
        exact t
      cases f3 with
      | error e => exact onlyWslCalls_append _ _ (onlyWslCalls_append _ _ c1 c2) c3
      | ok nl => exact onlyWslCalls_append _ _ (onlyWslCalls_append _ _ c1 c2) c3

theorem build_args_error_eq (s : Sys) (pp plat r l : String) (tf : Option String) (e : Err)
    (h : (build_args s pp plat r l tf).fst = Except.error e) :
    ∃ v, e = Err.pathConversion v := by
  unfold build_args at h
  rcases h1 : to_windows_path s pp with ⟨f1, ev1⟩
  rw [h1] at h
  cases f1 with
  | error e1 =>
    simp at h
    subst h
    have t : (to_windows_path s pp).fst = Except.error e1 := by rw [h1]
    exact ⟨pp, to_windows_path_error_eq s pp e1 t⟩
  | ok np =>
    rcases h2 : to_windows_path s r with ⟨f2, ev2⟩
    rw [h2] at h
    cases f2 with
    | error e2 =>
      simp at h
      subst h
      have t : (to_windows_path s r).fst = Except.error e2 := by rw [h2]
      exact ⟨r, to_windows_path_error_eq s r e2 t⟩
    | ok nr =>
      rcases h3 : to_windows_path s l with ⟨f3, ev3⟩
      rw [h3] at h
      cases f3 with
      | error e3 =>
        simp at h
        subst h
        have t : (to_windows_path s l).fst = Except.error e3 := by rw [h3]
        exact ⟨l, to_windows_path_error_eq s l e3 t⟩
      | ok nl => simp at h

theorem resolve_unity_path_calls (s : Sys) (c : Option String) (d : Bool) :
    onlyWslCalls (resolve_unity_path s c d).snd := by
  unfold resolve_unity_path
  split
  · exact onlyWslCalls_nil
  · rename_i u hu
    split
    · exact onlyWslCalls_nil
    · split
      · rename_i e ev1 heq
        have t := to_unix_path_calls s u
        rw [heq] at t
        exact t
      · rename_i unity ev1 heq
        have t := to_unix_path_calls s u
        rw [heq] at t
        split
        · exact t
        · exact t

theorem resolve_unity_path_dry_error (s : Sys) (c : Option String) (e : Err)
    (h : (resolve_unity_path s c true).fst = Except.error e) :
    e = Err.unityRequired ∨ ∃ v, e = Err.pathConversion v := by
  unfold resolve_unity_path at h
  split at h
  · left
    simp at h
    exact h.symm
  · rename_i u hu
    split at h
    · left
      simp at h
      exact h.symm
    · rcases h1 : to_unix_path s u with ⟨f1, ev1⟩
      rw [h1] at h
      cases f1 with
      | error e1 =>
        simp at h
        subst h
        right
        have t : (to_unix_path s u).fst = Except.error e1 := by rw [h1]
        exact ⟨u, to_unix_path_error_eq s u e1 t⟩
      | ok unity => simp at h

theorem run_one_dry_no_runner (s : Sys) (u pp plat r l : String) (tf : Option String) :
    noRunnerCall (run_one s u pp plat r l tf true).snd := by
  unfold run_one
  rcases h1 : build_args s pp plat r l tf with ⟨f1, ev1⟩
  have c1 : onlyWslCalls ev1 := by
    have t := build_args_calls s pp plat r l tf
    rw [h1] at t
    exact t
  cases f1 with
  | error e =>
    intro c hc
    rcases c1 _ hc with ⟨x, y, hxy⟩
    cases hxy
  | ok args =>
    intro c hc
    simp [List.mem_append] at hc
    rcases c1 _ hc with ⟨x, y, hxy⟩
    cases hxy

theorem run_one_dry_error (s : Sys) (u pp plat r l : String) (tf : Option String) (e : Err)
    (h : (run_one s u pp plat r l tf true).fst = Except.error e) :
    ∃ v, e = Err.pathConversion v := by
  unfold run_one at h
  rcases h1 : build_args s pp plat r l tf with ⟨f1, ev1⟩
  rw [h1] at h
  cases f1 with
  | error e1 =>
    simp at h
    subst h
    have t : (build_args s pp plat r l tf).fst = Except.error e1 := by rw [h1]
    exact build_args_error_eq s pp plat r l tf e1 t
  | ok args => simp at h

/-! ### C5: configuration guards fire before any process -/

/-- Claim C5: in `single` mode without a (truthy) filter, or in `single`/`suite`
mode without a (truthy) platform, `main` fails with a configuration error
and the event trace is empty: neither the converter nor the runner is
spawned. -/
theorem main_config_guard (s : Sys) (a : Args) (ts : String)
    (h : ((a.command = Mode.single ∨ a.command = Mode.suite) ∧ truthy a.platform = false) ∨
         (a.command = Mode.single ∧ truthy a.filter = false)) :
    ∃ e, Validate.main s a ts = (Except.error e, []) ∧ e.isConfiguration = true := by
  rcases h with ⟨hc, hp⟩ | ⟨hc, hf⟩
  · refine ⟨Err.platformRequired a.command.str, ?_, rfl⟩
    rcases hc with hc | hc <;> simp [Validate.main, hc, hp]
  · cases hp : truthy a.platform
    · refine ⟨Err.platformRequired a.command.str, ?_, rfl⟩
      simp [Validate.main, hc, hp]
    · refine ⟨Err.filterRequired, ?_, rfl⟩
      simp [Validate.main, hc, hp, hf]

theorem main_config_guard_witness :
    (∃ e, Validate.main sysOk { aFull with command := Mode.single, platform := some "EditMode" } "TS"
        = (Except.error e, []) ∧ e.isConfiguration = true) ∧
    (∃ e, Validate.main sysOk { aFull with command := Mode.suite } "TS"
        = (Except.error e, []) ∧ e.isConfiguration = true) :=
  ⟨main_config_guard sysOk { aFull with command := Mode.single, platform := some "EditMode" } "TS"
      (Or.inr ⟨rfl, rfl⟩),
   main_config_guard sysOk { aFull with command := Mode.suite } "TS"
      (Or.inl ⟨Or.inr rfl, rfl⟩)⟩

/-! ### C6: dry-run safety -/

theorem main_dry_shape (s : Sys) (a : Args) (ts : String) (hd : a.dry_run = true) :
    (∃ e, Validate.main s a ts = (Except.error e, []) ∧ e.isConfiguration = true) ∨
    (∃ f ev, Validate.main s a ts = (f, ev) ∧ noRunnerCall ev ∧
      ∀ e, f = Except.error e → e = Err.unityRequired ∨ ∃ v, e = Err.pathConversion v) := by
  obtain ⟨cmd, plat, filt, uni, ppath, rdir, ldir, dry⟩ := a
  have hd2 : dry = true := hd
  subst hd2
  have hres : ∀ (goal : Prop),
      ((∀ e ev0, resolve_unity_path s uni true = (Except.error e, ev0) → goal) →
       (∀ unity ev0, resolve_unity_path s uni true = (Except.ok unity, ev0) → goal) → goal) := by
    intro goal h1 h2
    rcases hq : resolve_unity_path s uni true with ⟨f, ev0⟩
    cases f with
    | error e => exact h1 e ev0 hq
    | ok unity => exact h2 unity ev0 hq
  cases cmd
  case single =>
    cases hp : truthy plat
    · left
      exact ⟨Err.platformRequired "single", by simp [Validate.main, Mode.str, hp], rfl⟩
    · cases hf : truthy filt
      · left
        exact ⟨Err.filterRequired, by simp [Validate.main, Mode.str, hp, hf], rfl⟩
      · refine hres _ ?_ ?_
        · intro e ev0 heq
          right
          refine ⟨Except.error e, ev0, by simp [Validate.main, hp, hf, heq], ?_, ?_⟩
          · intro c hc
            have t := resolve_unity_path_calls s uni true
            rw [heq] at t
            rcases t _ hc with ⟨x, y, hxy⟩
            cases hxy
          · intro e2 he2
            injection he2 with h
            subst h
            have t : (resolve_unity_path s uni true).fst = Except.error e := by rw [heq]
            exact resolve_unity_path_dry_error s uni e t
        · intro unity ev0 heq
          have c0 : onlyWslCalls ev0 := by
            have t := resolve_unity_path_calls s uni true
            rw [heq] at t
            exact t
          right
          refine ⟨(run_one s unity (s.resolvePath ppath) (plat.getD "")
              (rdir ++ "/" ++ plat.getD "" ++ "-single-" ++ ts ++ ".xml")
              (ldir ++ "/" ++ plat.getD "" ++ "-single-" ++ ts ++ ".log") filt true).fst,
            ev0 ++ (run_one s unity (s.resolvePath ppath) (plat.getD "")
              (rdir ++ "/" ++ plat.getD "" ++ "-single-" ++ ts ++ ".xml")
              (ldir ++ "/" ++ plat.getD "" ++ "-single-" ++ ts ++ ".log") filt true).snd,
            by simp [Validate.main, hp, hf, heq], ?_, ?_⟩
          · intro c hc
            rcases List.mem_append.mp hc with hc | hc
            · rcases c0 _ hc with ⟨x, y, hxy⟩
              cases hxy
            · exact run_one_dry_no_runner s unity _ _ _ _ filt c hc
          · intro e2 he2
            exact Or.inr (run_one_dry_error s unity _ _ _ _ filt e2 he2)
  case suite =>
    cases hp : truthy plat
    · left
      exact ⟨Err.platformRequired "suite", by simp [Validate.main, Mode.str, hp], rfl⟩
    · refine hres _ ?_ ?_
      · intro e ev0 heq
        right
        refine ⟨Except.error e, ev0, by simp [Validate.main, hp, heq], ?_, ?_⟩
        · intro c hc
          have t := resolve_unity_path_calls s uni true
          rw [heq] at t
          rcases t _ hc with ⟨x, y, hxy⟩
          cases hxy
        · intro e2 he2
          injection he2 with h
          subst h
          have t : (resolve_unity_path s uni true).fst = Except.error e := by rw [heq]
          exact resolve_unity_path_dry_error s uni e t
      · intro unity ev0 heq
        have c0 : onlyWslCalls ev0 := by
          have t := resolve_unity_path_calls s uni true
          rw [heq] at t
          exact t
        right
        refine ⟨(run_one s unity (s.resolvePath ppath) (plat.getD "")
            (rdir ++ "/" ++ plat.getD "" ++ "-suite-" ++ ts ++ ".xml")
            (ldir ++ "/" ++ plat.getD "" ++ "-suite-" ++ ts ++ ".log") none true).fst,
          ev0 ++ (run_one s unity (s.resolvePath ppath) (plat.getD "")
            (rdir ++ "/" ++ plat.getD "" ++ "-suite-" ++ ts ++ ".xml")
            (ldir ++ "/" ++ plat.getD "" ++ "-suite-" ++ ts ++ ".log") none true).snd,
          by simp [Validate.main, hp, heq], ?_, ?_⟩
        · intro c hc
          rcases List.mem_append.mp hc with hc | hc
          · rcases c0 _ hc with ⟨x, y, hxy⟩
            cases hxy
          · exact run_one_dry_no_runner s unity _ _ _ _ none c hc
        · intro e2 he2
          exact Or.inr (run_one_dry_error s unity _ _ _ _ none e2 he2)
  case full =>
    refine hres _ ?_ ?_
    · intro e ev0 heq
      right
      refine ⟨Except.error e, ev0, by simp [Validate.main, heq], ?_, ?_⟩
      · intro c hc
        have t := resolve_unity_path_calls s uni true
        rw [heq] at t
        rcases t _ hc with ⟨x, y, hxy⟩
        cases hxy
      · intro e2 he2
        injection he2 with h
        subst h
        have t : (resolve_unity_path s uni true).fst = Except.error e := by rw [heq]
        exact resolve_unity_path_dry_error s uni e t
    · intro unity ev0 heq
      have c0 : onlyWslCalls ev0 := by
        have t := resolve_unity_path_calls s uni true
        rw [heq] at t
        exact t
      rcases h1 : run_one s unity (s.resolvePath ppath) "EditMode"
          (rdir ++ "/EditMode-suite-" ++ ts ++ ".xml")
          (ldir ++ "/EditMode-suite-" ++ ts ++ ".log") none true with ⟨f1, ev1⟩
      have n1 : noRunnerCall ev1 := by
        have t := run_one_dry_no_runner s unity (s.resolvePath ppath) "EditMode"
          (rdir ++ "/EditMode-suite-" ++ ts ++ ".xml")
          (ldir ++ "/EditMode-suite-" ++ ts ++ ".log") none
        rw [h1] at t
        exact t
      cases f1 with
      | error e1 =>
        right
        refine ⟨Except.error e1, ev0 ++ ev1, by simp [Validate.main, heq, h1], ?_, ?_⟩
        · intro c hc
          rcases List.mem_append.mp hc with hc | hc
          · rcases c0 _ hc with ⟨x, y, hxy⟩
            cases hxy
          · exact n1 c hc
        · intro e2 he2
          injection he2 with h
          subst h
          have t : (run_one s unity (s.resolvePath ppath) "EditMode"
              (rdir ++ "/EditMode-suite-" ++ ts ++ ".xml")
              (ldir ++ "/EditMode-suite-" ++ ts ++ ".log") none true).fst = Except.error e1 := by
            rw [h1]
          exact Or.inr (run_one_dry_error s unity _ _ _ _ none e1 t)
      | ok u1 =>
        right
        refine ⟨(run_one s unity (s.resolvePath ppath) "PlayMode"
            (rdir ++ "/PlayMode-suite-" ++ ts ++ ".xml")
            (ldir ++ "/PlayMode-suite-" ++ ts ++ ".log") none true).fst,
          ev0 ++ ev1 ++ (run_one s unity (s.resolvePath ppath) "PlayMode"
            (rdir ++ "/PlayMode-suite-" ++ ts ++ ".xml")
            (ldir ++ "/PlayMode-suite-" ++ ts ++ ".log") none true).snd,
          by simp [Validate.main, heq, h1], ?_, ?_⟩
        · intro c hc
          rcases List.mem_append.mp hc with hc | hc
          · rcases List.mem_append.mp hc with hc | hc
            · rcases c0 _ hc with ⟨x, y, hxy⟩
              cases hxy
            · exact n1 c hc
          · exact run_one_dry_no_runner s unity _ _ _ _ none c hc
        · intro e2 he2
          exact Or.inr (run_one_dry_error s unity _ _ _ _ none e2 he2)

/-- Claim C6: with the dry-run switch set, for every mode and every environment,
the runner process is never launched (no `runnerCall` in the trace) and the
command never fails with the executable-not-found error: the existence
check is skipped when dry-run is true. -/
theorem dry_run_no_runner_no_notfound (s : Sys) (a : Args) (ts : String)
    (hd : a.dry_run = true) :
    (∀ c, ProcEvent.runnerCall c ∉ (Validate.main s a ts).snd) ∧
    (∀ e p, (Validate.main s a ts).fst = Except.error e → e ≠ Err.unityNotFound p) := by
  rcases main_dry_shape s a ts hd with ⟨e, hm, hcfg⟩ | ⟨f, ev, hm, hnr, herr⟩
  · constructor
    · intro c
      rw [hm]
      simp
    · intro e2 p hf2
      rw [hm] at hf2
      simp at hf2
      subst hf2
      intro hne
      subst hne
      simp [Err.isConfiguration] at hcfg
  · constructor
    · intro c
      rw [hm]
      exact hnr c
    · intro e2 p hf2
      rw [hm] at hf2
      rcases herr e2 hf2 with h | ⟨v, h⟩ <;> subst h <;> simp

theorem dry_run_no_runner_no_notfound_witness :
    ProcEvent.runnerCall [] ∉ (Validate.main sysOk { aFull with dry_run := true } "TS").snd :=
  (dry_run_no_runner_no_notfound sysOk { aFull with dry_run := true } "TS" rfl).1 []

/-! ### C10: suite and full mode ignore any supplied filter -/

theorem eventNoFilter_of_wsl (ev : List ProcEvent) (hev : onlyWslCalls ev) :
    ∀ e ∈ ev, eventNoFilter e := by
  intro e he
  rcases hev e he with ⟨x, y, hxy⟩
  subst hxy
  exact ⟨(fun cmd h => nomatch h), (fun u2 args2 h => nomatch h)⟩

theorem run_one_none_events (s : Sys) (u pp plat r l : String) (d : Bool) :
    ∀ e ∈ (run_one s u pp plat r l none d).snd, eventNoFilter e := by
  unfold run_one
  rcases h1 : build_args s pp plat r l none with ⟨f1, ev1⟩
  have c1 : onlyWslCalls ev1 := by
    have t := build_args_calls s pp plat r l none
    rw [h1] at t
    exact t
  cases f1 with
  | error e => exact eventNoFilter_of_wsl ev1 c1
  | ok args =>
    have hshape : fixedInvocation args := by
      have hba : build_args s pp plat r l none = (Except.ok args, ev1) := h1
      rcases build_args_ok s pp plat r l none args ev1 hba with ⟨np, nr, nl, ht⟩
      refine ⟨np, plat, nr, nl, ?_⟩
      simp [truthy] at ht
      exact ht
    intro e2 he2
    cases d with
    | true =>
      simp [List.mem_append] at he2
      rcases he2 with he2 | he2 | he2
      · exact eventNoFilter_of_wsl ev1 c1 e2 he2
      · subst he2
        exact ⟨(fun cmd h => nomatch h), (fun u2 args2 h => nomatch h)⟩
      · subst he2
        refine ⟨(fun cmd h => nomatch h), fun u2 args2 h => ?_⟩
        cases h
        exact hshape
    | false =>
      cases hc : (s.runnerExit (u :: args) != 0) <;> simp [hc, List.mem_append] at he2 <;>
        rcases he2 with he2 | he2 | he2
      · exact eventNoFilter_of_wsl ev1 c1 e2 he2
      · subst he2
        exact ⟨(fun cmd h => nomatch h), (fun u2 args2 h => nomatch h)⟩
      · subst he2
        refine ⟨fun cmd h => ?_, fun u2 args2 h => nomatch h⟩
        cases h
        exact ⟨u, args, rfl, hshape⟩
      · exact eventNoFilter_of_wsl ev1 c1 e2 he2
      · subst he2
        exact ⟨(fun cmd h => nomatch h), (fun u2 args2 h => nomatch h)⟩
      · subst he2
        refine ⟨fun cmd h => ?_, fun u2 args2 h => nomatch h⟩
        cases h
        exact ⟨u, args, rfl, hshape⟩

/-- Claim C10: in suite mode and in full mode any filter supplied on the command
line is silently ignored: the invocation builder is called with no filter,
so every runner command line and every dry-run command line in the trace
carries the fixed flag list with no filter pair appended. -/
theorem suite_full_ignore_filter (s : Sys) (a : Args) (ts : String)
    (h : a.command = Mode.suite ∨ a.command = Mode.full) :
    ∀ e ∈ (Validate.main s a ts).snd, eventNoFilter e := by
  obtain ⟨cmd, plat, filt, uni, ppath, rdir, ldir, dry⟩ := a
  rcases h with h | h
  · have h2 : cmd = Mode.suite := h
    subst h2
    cases hp : truthy plat
    · simp [Validate.main, hp]
    · rcases hq : resolve_unity_path s uni dry with ⟨f0, ev0⟩
      have c0 : onlyWslCalls ev0 := by
        have t := resolve_unity_path_calls s uni dry
        rw [hq] at t
        exact t
      cases f0 with
      | error e0 =>
        intro e he
        simp [Validate.main, hp, hq] at he
        exact eventNoFilter_of_wsl ev0 c0 e he
      | ok unity =>
        intro e he
        simp [Validate.main, hp, hq, List.mem_append, or_assoc] at he
        rcases he with he | he
        · exact eventNoFilter_of_wsl ev0 c0 e he
        · exact run_one_none_events s unity _ _ _ _ dry e he
  · have h2 : cmd = Mode.full := h
    subst h2
    rcases hq : resolve_unity_path s uni dry with ⟨f0, ev0⟩
    have c0 : onlyWslCalls ev0 := by
      have t := resolve_unity_path_calls s uni dry
      rw [hq] at t
      exact t
    cases f0 with
    | error e0 =>
      intro e he
      simp [Validate.main, hq] at he
      exact eventNoFilter_of_wsl ev0 c0 e he
    | ok unity =>
      rcases h1 : run_one s unity (s.resolvePath ppath) "EditMode"
          (rdir ++ "/EditMode-suite-" ++ ts ++ ".xml")
          (ldir ++ "/EditMode-suite-" ++ ts ++ ".log") none dry with ⟨f1, ev1⟩
      have t1 : ∀ e ∈ ev1, eventNoFilter e := by
        have t := run_one_none_events s unity (s.resolvePath ppath) "EditMode"
          (rdir ++ "/EditMode-suite-" ++ ts ++ ".xml")
          (ldir ++ "/EditMode-suite-" ++ ts ++ ".log") dry
        rw [h1] at t
        exact t
      cases f1 with
      | error e1 =>
        intro e he
        simp [Validate.main, hq, h1, List.mem_append, or_assoc] at he
        rcases he with he | he
        · exact eventNoFilter_of_wsl ev0 c0 e he
        · exact t1 e he
      | ok u1 =>
        intro e he
        simp [Validate.main, hq, h1, List.mem_append, or_assoc] at he
        rcases he with he | he | he
        · exact eventNoFilter_of_wsl ev0 c0 e he
        · exact t1 e he
        · exact run_one_none_events s unity _ _ _ _ dry e he

theorem suite_full_ignore_filter_witness :
    eventNoFilter (ProcEvent.runnerCall ["unity", "-batchmode", "-projectPath", "proj",
      "-runTests", "-testPlatform", "EditMode", "-testResults", "res/EditMode-suite-TS.xml",
      "-logFile", "logs/EditMode-suite-TS.log", "-quit"]) :=
  suite_full_ignore_filter sysOk { aFull with filter := some "MyTest" } "TS" (Or.inr rfl)
    (ProcEvent.runnerCall ["unity", "-batchmode", "-projectPath", "proj",
      "-runTests", "-testPlatform", "EditMode", "-testResults", "res/EditMode-suite-TS.xml",
      "-logFile", "logs/EditMode-suite-TS.log", "-quit"]) (by decide)

/-! ### C2: full mode runs exactly two suites, fail-fast -/

/-- Claim C2: in full mode (not dry), on a native system with a valid explicit
executable: (a) if every runner invocation exits zero, exactly two runs
execute in fixed order — the EditMode suite then the PlayMode suite — with
result/log names tagged `EditMode-suite-<ts>` / `PlayMode-suite-<ts>`
sharing the one timestamp; (b) if the first (EditMode) run exits nonzero,
the command fails with that exit code and the second run is never started
(its trace stops after the first runner call). -/
theorem main_full_two_runs (s : Sys) (a : Args) (ts u : String)
    (hc : a.command = Mode.full) (hd : a.dry_run = false)
    (hw : is_wsl s = false) (hu : a.unity = some u) (hne : u ≠ "")
    (hf : s.isFile u = true) :
    ((∀ c, s.runnerExit c = 0) →
      Validate.main s a ts = (Except.ok (),
        [ProcEvent.runInfo "EditMode" (a.results_dir ++ "/EditMode-suite-" ++ ts ++ ".xml")
            (a.logs_dir ++ "/EditMode-suite-" ++ ts ++ ".log"),
         ProcEvent.runnerCall [u, "-batchmode", "-projectPath", s.resolvePath a.project_path,
            "-runTests", "-testPlatform", "EditMode",
            "-testResults", a.results_dir ++ "/EditMode-suite-" ++ ts ++ ".xml",
            "-logFile", a.logs_dir ++ "/EditMode-suite-" ++ ts ++ ".log", "-quit"],
         ProcEvent.runInfo "PlayMode" (a.results_dir ++ "/PlayMode-suite-" ++ ts ++ ".xml")
            (a.logs_dir ++ "/PlayMode-suite-" ++ ts ++ ".log"),
         ProcEvent.runnerCall [u, "-batchmode", "-projectPath", s.resolvePath a.project_path,
            "-runTests", "-testPlatform", "PlayMode",
            "-testResults", a.results_dir ++ "/PlayMode-suite-" ++ ts ++ ".xml",
            "-logFile", a.logs_dir ++ "/PlayMode-suite-" ++ ts ++ ".log", "-quit"]])) ∧
    (s.runnerExit [u, "-batchmode", "-projectPath", s.resolvePath a.project_path,
        "-runTests", "-testPlatform", "EditMode",
        "-testResults", a.results_dir ++ "/EditMode-suite-" ++ ts ++ ".xml",
        "-logFile", a.logs_dir ++ "/EditMode-suite-" ++ ts ++ ".log", "-quit"] ≠ 0 →
      Validate.main s a ts = (Except.error (Err.runnerFailed (s.runnerExit
        [u, "-batchmode", "-projectPath", s.resolvePath a.project_path,
         "-runTests", "-testPlatform", "EditMode",
         "-testResults", a.results_dir ++ "/EditMode-suite-" ++ ts ++ ".xml",
         "-logFile", a.logs_dir ++ "/EditMode-suite-" ++ ts ++ ".log", "-quit"])),
        [ProcEvent.runInfo "EditMode" (a.results_dir ++ "/EditMode-suite-" ++ ts ++ ".xml")
            (a.logs_dir ++ "/EditMode-suite-" ++ ts ++ ".log"),
         ProcEvent.runnerCall [u, "-batchmode", "-projectPath", s.resolvePath a.project_path,
            "-runTests", "-testPlatform", "EditMode",
            "-testResults", a.results_dir ++ "/EditMode-suite-" ++ ts ++ ".xml",
            "-logFile", a.logs_dir ++ "/EditMode-suite-" ++ ts ++ ".log", "-quit"]])) := by
  have htr : truthy (some u) = true := by simp [truthy, hne]
  have hresolve : resolve_unity_path s a.unity false = (Except.ok u, []) := by
    rw [hu]
    simp [resolve_unity_path, htr, truthy, hne, to_unix_path, hw, hf]
  constructor
  · intro hz
    have hrE : run_one s u (s.resolvePath a.project_path) "EditMode"
        (a.results_dir ++ "/EditMode-suite-" ++ ts ++ ".xml")
        (a.logs_dir ++ "/EditMode-suite-" ++ ts ++ ".log") none false =
        (Except.ok (),
         [ProcEvent.runInfo "EditMode" (a.results_dir ++ "/EditMode-suite-" ++ ts ++ ".xml")
            (a.logs_dir ++ "/EditMode-suite-" ++ ts ++ ".log"),
          ProcEvent.runnerCall [u, "-batchmode", "-projectPath", s.resolvePath a.project_path,
            "-runTests", "-testPlatform", "EditMode",
            "-testResults", a.results_dir ++ "/EditMode-suite-" ++ ts ++ ".xml",
            "-logFile", a.logs_dir ++ "/EditMode-suite-" ++ ts ++ ".log", "-quit"]]) := by
      simp [run_one, build_args, to_windows_path, hw, truthy, hz]
    have hrP : run_one s u (s.resolvePath a.project_path) "PlayMode"
        (a.results_dir ++ "/PlayMode-suite-" ++ ts ++ ".xml")
        (a.logs_dir ++ "/PlayMode-suite-" ++ ts ++ ".log") none false =
        (Except.ok (),
         [ProcEvent.runInfo "PlayMode" (a.results_dir ++ "/PlayMode-suite-" ++ ts ++ ".xml")
            (a.logs_dir ++ "/PlayMode-suite-" ++ ts ++ ".log"),
          ProcEvent.runnerCall [u, "-batchmode", "-projectPath", s.resolvePath a.project_path,
            "-runTests", "-testPlatform", "PlayMode",
            "-testResults", a.results_dir ++ "/PlayMode-suite-" ++ ts ++ ".xml",
            "-logFile", a.logs_dir ++ "/PlayMode-suite-" ++ ts ++ ".log", "-quit"]]) := by
      simp [run_one, build_args, to_windows_path, hw, truthy, hz]
    simp [Validate.main, hc, hd, hresolve, hrE, hrP]
  · intro hnz
    have hb : (s.runnerExit [u, "-batchmode", "-projectPath", s.resolvePath a.project_path,
        "-runTests", "-testPlatform", "EditMode",
        "-testResults", a.results_dir ++ "/EditMode-suite-" ++ ts ++ ".xml",
        "-logFile", a.logs_dir ++ "/EditMode-suite-" ++ ts ++ ".log", "-quit"] != 0) = true := by
      simpa [bne_iff_ne] using hnz
    have hrE : run_one s u (s.resolvePath a.project_path) "EditMode"
        (a.results_dir ++ "/EditMode-suite-" ++ ts ++ ".xml")
        (a.logs_dir ++ "/EditMode-suite-" ++ ts ++ ".log") none false =
        (Except.error (Err.runnerFailed (s.runnerExit
          [u, "-batchmode", "-projectPath", s.resolvePath a.project_path,
           "-runTests", "-testPlatform", "EditMode",
           "-testResults", a.results_dir ++ "/EditMode-suite-" ++ ts ++ ".xml",
           "-logFile", a.logs_dir ++ "/EditMode-suite-" ++ ts ++ ".log", "-quit"])),
         [ProcEvent.runInfo "EditMode" (a.results_dir ++ "/EditMode-suite-" ++ ts ++ ".xml")
            (a.logs_dir ++ "/EditMode-suite-" ++ ts ++ ".log"),
          ProcEvent.runnerCall [u, "-batchmode", "-projectPath", s.resolvePath a.project_path,
            "-runTests", "-testPlatform", "EditMode",
            "-testResults", a.results_dir ++ "/EditMode-suite-" ++ ts ++ ".xml",
            "-logFile", a.logs_dir ++ "/EditMode-suite-" ++ ts ++ ".log", "-quit"]]) := by
      simp [run_one, build_args, to_windows_path, hw, truthy, hb]
    simp [Validate.main, hc, hd, hresolve, hrE]

theorem main_full_two_runs_witness :
    Validate.main sysOk aFull "TS" = (Except.ok (),
      [ProcEvent.runInfo "EditMode" "res/EditMode-suite-TS.xml" "logs/EditMode-suite-TS.log",
       ProcEvent.runnerCall ["unity", "-batchmode", "-projectPath", "proj", "-runTests",
         "-testPlatform", "EditMode", "-testResults", "res/EditMode-suite-TS.xml",
         "-logFile", "logs/EditMode-suite-TS.log", "-quit"],
       ProcEvent.runInfo "PlayMode" "res/PlayMode-suite-TS.xml" "logs/PlayMode-suite-TS.log",
       ProcEvent.runnerCall ["unity", "-batchmode", "-projectPath", "proj", "-runTests",
         "-testPlatform", "PlayMode", "-testResults", "res/PlayMode-suite-TS.xml",
         "-logFile", "logs/PlayMode-suite-TS.log", "-quit"]]) ∧
    (Validate.main sysRunFail aFull "TS").fst = Except.error (Err.runnerFailed 2) ∧
    ProcEvent.runnerCall ["unity", "-batchmode", "-projectPath", "proj", "-runTests",
      "-testPlatform", "PlayMode", "-testResults", "res/PlayMode-suite-TS.xml",
      "-logFile", "logs/PlayMode-suite-TS.log", "-quit"] ∉ (Validate.main sysRunFail aFull "TS").snd := by
  refine ⟨?_, ?_, ?_⟩
  · have h := (main_full_two_runs sysOk aFull "TS" "unity" rfl rfl rfl rfl (by decide) rfl).1
      (fun c => rfl)
    rw [h]
    rfl
  · have h := (main_full_two_runs sysRunFail aFull "TS" "unity" rfl rfl rfl rfl (by decide) rfl).2
      (by decide)
    rw [h]
    rfl
  · have h := (main_full_two_runs sysRunFail aFull "TS" "unity" rfl rfl rfl rfl (by decide) rfl).2
      (by decide)
    rw [h]
    decide
